import Mathlib

/-!
Verification of the BMA Social frontend against its specification.

The repository is a React/TypeScript frontend; the definitions below are a
shallow embedding of the functions the specification talks about:

* `calculateTotals`, `handleAddItem`, `loadQuotation`
  from `frontend/src/pages/QuotationForm.tsx`;
* `createQuotation` / `updateQuotation`
  from `frontend/src/services/quotation.service.ts`;
* `loadConversations` / `loadMessagesSmartly`
  from the conversations page component;
* `calculateRecipients` and the campaign save-button guard
  from the campaigns page component.

JavaScript numbers are modelled as exact rationals (`ℚ`); JavaScript string
truthiness (`s ? a : b`, `x || y`) is modelled explicitly by comparison
with the empty string.  Asynchronous fetches are modelled by passing the
fetch outcome (`Except` for success/failure) as an argument; a handler is a
pure function from the component state and the fetch outcome to the new
component state.
-/

/-- JavaScript `o || d` on an optional string: `undefined`, `null` and the
empty string are all falsy, so they fall through to the default. -/
def jsOrString (o : Option String) (d : String) : String :=
  match o with
  | some s => if s = "" then d else s
  | none => d

/-! ## Quotation form (`QuotationForm.tsx`) -/

/-- A quotation line item, as in the `QuotationItem` interface of
`quotation.service.ts`: the `total` field is stored per item. -/
structure QuotationItem where
  description : String
  quantity : ℚ
  unit_price : ℚ
  total : ℚ
deriving DecidableEq, Repr

/-- The `formData` state of `QuotationForm.tsx` (the fields of the
`useState` initialiser). -/
structure QuotationFormData where
  customer_id : String
  company_name : String
  company_address : String
  company_tax_id : String
  title : String
  description : String
  items : List QuotationItem
  currency : String
  discount_percent : ℚ
  tax_percent : ℚ
  payment_terms : String
  validity_days : ℚ
  notes : String
deriving DecidableEq, Repr

/-- The initial `formData` value of `QuotationForm.tsx`. -/
def initialFormData : QuotationFormData :=
  { customer_id := ""
    company_name := ""
    company_address := ""
    company_tax_id := ""
    title := ""
    description := ""
    items := []
    currency := "THB"
    discount_percent := 0
    tax_percent := 7
    payment_terms := "50% deposit, 50% on completion"
    validity_days := 30
    notes := "" }

/-- The record returned by `calculateTotals`. -/
structure QuotationTotals where
  subtotal : ℚ
  discountAmount : ℚ
  taxAmount : ℚ
  total : ℚ
deriving DecidableEq, Repr

/-- `calculateTotals` from `QuotationForm.tsx`: sums the stored per-item
totals with `reduce`, then derives discount, tax and grand total. -/
def calculateTotals (fd : QuotationFormData) : QuotationTotals :=
  let subtotal := fd.items.foldl (fun sum item => sum + item.total) 0
  let discountAmount := subtotal * (fd.discount_percent / 100)
  let afterDiscount := subtotal - discountAmount
  let taxAmount := afterDiscount * (fd.tax_percent / 100)
  let total := afterDiscount + taxAmount
  { subtotal := subtotal
    discountAmount := discountAmount
    taxAmount := taxAmount
    total := total }

lemma foldl_add_map (f : QuotationItem → ℚ) (l : List QuotationItem) (a : ℚ) :
    l.foldl (fun s it => s + f it) a = a + (l.map f).sum := by
  induction l generalizing a with
  | nil => simp
  | cons x xs ih => simp [List.foldl_cons, ih (a + f x), add_assoc]

/-- C1: when every stored per-item `total` equals `quantity × unit_price`,
`calculateTotals` returns `subtotal = Σ quantityᵢ × unit_priceᵢ`,
`discountAmount = subtotal × discount_percent / 100`,
`taxAmount = (subtotal − discountAmount) × tax_percent / 100` and
`total = (subtotal − discountAmount) + taxAmount`. -/
theorem calculateTotals_formula (fd : QuotationFormData)
    (h : ∀ it ∈ fd.items, it.total = it.quantity * it.unit_price) :
    (calculateTotals fd).subtotal
        = (fd.items.map (fun it => it.quantity * it.unit_price)).sum ∧
    (calculateTotals fd).discountAmount
        = (calculateTotals fd).subtotal * fd.discount_percent / 100 ∧
    (calculateTotals fd).taxAmount
        = ((calculateTotals fd).subtotal - (calculateTotals fd).discountAmount)
            * fd.tax_percent / 100 ∧
    (calculateTotals fd).total
        = ((calculateTotals fd).subtotal - (calculateTotals fd).discountAmount)
            + (calculateTotals fd).taxAmount := by
  have hmap : fd.items.map (fun it => it.total)
      = fd.items.map (fun it => it.quantity * it.unit_price) :=
    List.map_congr_left h
  refine ⟨?_, ?_, ?_, ?_⟩
  · simp [calculateTotals, foldl_add_map (fun it => it.total), hmap]
  · simp [calculateTotals, mul_div_assoc]
  · simp [calculateTotals, mul_div_assoc]
  · simp [calculateTotals]

/-- Witness for `calculateTotals_formula` at a concrete one-item form. -/
theorem calculateTotals_formula_witness :
    (∀ it ∈ ({ initialFormData with
        items := [{ description := "Sound design", quantity := 2,
                    unit_price := 50, total := 100 }] } :
        QuotationFormData).items, it.total = it.quantity * it.unit_price) ∧
    (calculateTotals { initialFormData with
        items := [{ description := "Sound design", quantity := 2,
                    unit_price := 50, total := 100 }] }).subtotal
      = (({ initialFormData with
        items := [{ description := "Sound design", quantity := 2,
                    unit_price := 50, total := 100 }] } :
        QuotationFormData).items.map
          (fun it => it.quantity * it.unit_price)).sum :=
  ⟨by norm_num, (calculateTotals_formula _ (by norm_num)).1⟩

/-- C2: the two test vectors of the specification, evaluated exactly. -/
theorem calculateTotals_vectors :
    calculateTotals { initialFormData with
        items := [{ description := "", quantity := 1, unit_price := 12000,
                    total := 12000 }]
        discount_percent := 0
        tax_percent := 7 }
      = { subtotal := 12000, discountAmount := 0, taxAmount := 840,
          total := 12840 } ∧
    calculateTotals { initialFormData with
        items := [{ description := "", quantity := 1, unit_price := 50000,
                    total := 50000 },
                  { description := "", quantity := 10, unit_price := 5000,
                    total := 50000 }]
        discount_percent := 10
        tax_percent := 7 }
      = { subtotal := 100000, discountAmount := 10000, taxAmount := 6300,
          total := 96300 } := by
  constructor <;>
    · simp only [calculateTotals, QuotationTotals.mk.injEq, List.foldl]
      norm_num

/-! ## Quotation data model and the edit form lifecycle -/

/-- Quotation lifecycle status, as in the `status` union of the
`Quotation` interface in `quotation.service.ts`. -/
inductive QuotationStatus where
  | draft
  | sent
  | viewed
  | accepted
  | rejected
  | expired
deriving DecidableEq, Repr

/-- A contact, as in the `Contact` interface of `contact.service.ts`. -/
structure Contact where
  id : String
  name : String
  phone : String
  email : Option String
  whatsapp_id : Option String
  line_id : Option String
  tags : List String
  notes : Option String
  created_at : String
  updated_at : String
deriving DecidableEq, Repr

/-- A quotation, as in the `Quotation` interface of `quotation.service.ts`.
The `currency` field is not declared in that interface but is read by
`QuotationForm.tsx` (`quotation.currency || 'THB'`), so it is modelled as
optional. -/
structure Quotation where
  id : String
  quote_number : String
  customer_id : String
  customer_name : String
  customer_phone : String
  customer_email : Option String
  company_name : Option String
  company_address : Option String
  company_tax_id : Option String
  title : String
  description : Option String
  items : List QuotationItem
  currency : Option String
  subtotal : ℚ
  discount_percent : ℚ
  discount_amount : ℚ
  tax_percent : ℚ
  tax_amount : ℚ
  total_amount : ℚ
  payment_terms : String
  validity_days : ℚ
  notes : Option String
  status : QuotationStatus
  sent_at : Option String
  viewed_at : Option String
  responded_at : Option String
  pdf_url : Option String
  created_at : String
  created_by_name : String
deriving DecidableEq, Repr

/-- The `newItem` state of `QuotationForm.tsx`. -/
structure NewItemState where
  description : String
  quantity : ℚ
  unit_price : ℚ
deriving DecidableEq, Repr

/-- The initial (and reset) value of `newItem` in `QuotationForm.tsx`. -/
def initialNewItem : NewItemState :=
  { description := "", quantity := 1, unit_price := 0 }

/-- The component state of `QuotationForm.tsx` that the handlers below
read and write. -/
structure QuotationFormState where
  formData : QuotationFormData
  newItem : NewItemState
  selectedContact : Option Contact
  error : Option String
deriving DecidableEq, Repr

/-- `loadQuotation` from `QuotationForm.tsx`: a non-`draft` quotation only
sets the error message and returns before touching the form; a `draft`
quotation populates the form fields (JavaScript `x || y` fallbacks are
modelled by `jsOrString`). -/
def loadQuotation (s : QuotationFormState) (contacts : List Contact)
    (q : Quotation) : QuotationFormState :=
  if q.status ≠ QuotationStatus.draft then
    { s with error := some "Can only edit draft quotations" }
  else
    { s with
      selectedContact := contacts.find? (fun c => c.id = q.customer_id)
      formData :=
        { customer_id := q.customer_id
          company_name := jsOrString q.company_name ""
          company_address := jsOrString q.company_address ""
          company_tax_id := jsOrString q.company_tax_id ""
          title := q.title
          description := jsOrString q.description ""
          items := q.items
          currency := jsOrString q.currency "THB"
          discount_percent := q.discount_percent
          tax_percent := q.tax_percent
          payment_terms := q.payment_terms
          validity_days := q.validity_days
          notes := jsOrString q.notes "" } }

/-- Modelled from the spec: the backend quotation mutation endpoint is not
part of this repository's sources (only the frontend is under `src/`); per
the spec, "Edit is permitted only while `status == draft`; any other
status rejects mutation with a conflict error". -/
def backendUpdateQuotation (q : Quotation) (upd : QuotationFormData) :
    Except String Quotation :=
  if q.status = QuotationStatus.draft then
    .ok { q with
      title := upd.title
      items := upd.items
      discount_percent := upd.discount_percent
      tax_percent := upd.tax_percent
      payment_terms := upd.payment_terms
      validity_days := upd.validity_days }
  else
    .error "conflict"

/-- C3: a quotation whose status is not `draft` cannot be edited: the
backend mutation (modelled from the spec) rejects with a conflict error
for every update payload, and `loadQuotation` refuses to load it into the
edit form, reporting "Can only edit draft quotations" and leaving the form
data unchanged. -/
theorem nondraft_quotation_edit_rejected (s : QuotationFormState)
    (contacts : List Contact) (q : Quotation)
    (h : q.status ≠ QuotationStatus.draft) :
    (∀ upd, backendUpdateQuotation q upd = .error "conflict") ∧
    loadQuotation s contacts q
        = { s with error := some "Can only edit draft quotations" } ∧
    (loadQuotation s contacts q).formData = s.formData := by
  refine ⟨fun upd => ?_, ?_, ?_⟩
  · simp only [backendUpdateQuotation, if_neg h]
  · simp only [loadQuotation, if_pos h]
  · simp only [loadQuotation, if_pos h]

/-- A concrete already-sent quotation, used to witness the edit guard. -/
def sentQuotation : Quotation :=
  { id := "q-1"
    quote_number := "Q-2025-001"
    customer_id := "c-1"
    customer_name := "Acme"
    customer_phone := "+6600000000"
    customer_email := none
    company_name := none
    company_address := none
    company_tax_id := none
    title := "Background music"
    description := none
    items := [{ description := "Subscription", quantity := 1,
                unit_price := 12000, total := 12000 }]
    currency := none
    subtotal := 12000
    discount_percent := 0
    discount_amount := 0
    tax_percent := 7
    tax_amount := 840
    total_amount := 12840
    payment_terms := "50% deposit, 50% on completion"
    validity_days := 30
    notes := none
    status := QuotationStatus.sent
    sent_at := some "2025-01-04T00:00:00Z"
    viewed_at := none
    responded_at := none
    pdf_url := none
    created_at := "2025-01-01T00:00:00Z"
    created_by_name := "admin" }

/-- Witness for `nondraft_quotation_edit_rejected` on a sent quotation. -/
theorem nondraft_quotation_edit_rejected_witness :
    sentQuotation.status ≠ QuotationStatus.draft ∧
    backendUpdateQuotation sentQuotation initialFormData
        = .error "conflict" ∧
    (loadQuotation
        { formData := initialFormData, newItem := initialNewItem,
          selectedContact := none, error := none } [] sentQuotation).formData
      = initialFormData :=
  ⟨by decide,
   (nondraft_quotation_edit_rejected
      { formData := initialFormData, newItem := initialNewItem,
        selectedContact := none, error := none } [] sentQuotation
      (by decide)).1 initialFormData,
   (nondraft_quotation_edit_rejected
      { formData := initialFormData, newItem := initialNewItem,
        selectedContact := none, error := none } [] sentQuotation
      (by decide)).2.2⟩

/-- `handleAddItem` from `QuotationForm.tsx`: the pending item is appended
only when its description is truthy (non-empty) and its unit price is
strictly positive; the appended item stores `total = quantity ×
unit_price` and the pending inputs reset to their defaults. -/
def handleAddItem (s : QuotationFormState) : QuotationFormState :=
  if s.newItem.description ≠ "" ∧ 0 < s.newItem.unit_price then
    { s with
      formData := { s.formData with
        items := s.formData.items ++
          [{ description := s.newItem.description
             quantity := s.newItem.quantity
             unit_price := s.newItem.unit_price
             total := s.newItem.quantity * s.newItem.unit_price }] }
      newItem := initialNewItem }
  else
    s

/-- C9: `handleAddItem` appends exactly when the pending description is
non-empty and the unit price is positive; then the new last item stores
`total = quantity × unit_price`, the previous items are preserved as a
prefix, and the pending inputs reset; otherwise the state is unchanged.
Every item present after the call was either already there or satisfies
the guard, so a zero-priced or description-less item never enters the
list through the form. -/
theorem handleAddItem_guard (s : QuotationFormState) :
    ((s.newItem.description ≠ "" ∧ 0 < s.newItem.unit_price) →
      (handleAddItem s).formData.items
          = s.formData.items ++
            [{ description := s.newItem.description
               quantity := s.newItem.quantity
               unit_price := s.newItem.unit_price
               total := s.newItem.quantity * s.newItem.unit_price }] ∧
      (handleAddItem s).newItem = initialNewItem) ∧
    (¬(s.newItem.description ≠ "" ∧ 0 < s.newItem.unit_price) →
      handleAddItem s = s) ∧
    (∀ it ∈ (handleAddItem s).formData.items,
      it ∈ s.formData.items ∨
        (it.description ≠ "" ∧ 0 < it.unit_price ∧
          it.total = it.quantity * it.unit_price)) := by
  by_cases hc : s.newItem.description ≠ "" ∧ 0 < s.newItem.unit_price
  · refine ⟨fun _ => ⟨?_, ?_⟩, fun hn => absurd hc hn, fun it hit => ?_⟩
    · simp [handleAddItem, if_pos hc]
    · simp [handleAddItem, if_pos hc]
    · simp only [handleAddItem, if_pos hc, List.mem_append,
        List.mem_singleton] at hit
      rcases hit with hold | hnew
      · exact Or.inl hold
      · subst hnew
        exact Or.inr ⟨hc.1, hc.2, rfl⟩
  · refine ⟨fun hy => absurd hy hc, fun _ => ?_, fun it hit => ?_⟩
    · simp [handleAddItem, if_neg hc]
    · simp only [handleAddItem, if_neg hc] at hit
      exact Or.inl hit

/-- Witness for `handleAddItem_guard` on a valid pending item. -/
theorem handleAddItem_guard_witness :
    (("PA system" ≠ "" ∧ (0 : ℚ) < 5000) →
      (handleAddItem
          { formData := initialFormData
            newItem := { description := "PA system", quantity := 2,
                         unit_price := 5000 }
            selectedContact := none
            error := none }).formData.items
          = [] ++
            [{ description := "PA system", quantity := 2,
               unit_price := 5000, total := 2 * 5000 }] ∧
      (handleAddItem
          { formData := initialFormData
            newItem := { description := "PA system", quantity := 2,
                         unit_price := 5000 }
            selectedContact := none
            error := none }).newItem = initialNewItem) :=
  fun h =>
    (handleAddItem_guard
      { formData := initialFormData
        newItem := { description := "PA system", quantity := 2,
                     unit_price := 5000 }
        selectedContact := none
        error := none }).1 h

/-! ## Conversations page: polling and smart refresh -/

/-- Message delivery status, as in the `status` union of the `Message`
interface in `conversation.service.ts`. -/
inductive MessageStatus where
  | pending
  | sent
  | delivered
  | read
  | failed
deriving DecidableEq, Repr

/-- Message direction, as in the `direction` union of the `Message`
interface. -/
inductive MessageDirection where
  | inbound
  | outbound
deriving DecidableEq, Repr

/-- A message, as in the `Message` interface of `conversation.service.ts`
(the `type` union is kept as a string). -/
structure Message where
  id : String
  conversation_id : String
  type : String
  content : String
  media_url : Option String
  direction : MessageDirection
  status : MessageStatus
  created_at : String
  sender_name : Option String
deriving DecidableEq, Repr

/-- A conversation, as in the `Conversation` interface of
`conversation.service.ts` (the `channel` and `status` unions are kept as
strings). -/
structure Conversation where
  id : String
  customer_id : String
  customer_name : String
  customer_phone : String
  channel : String
  status : String
  unread_count : Nat
  last_message_at : String
  last_message_preview : String
  assigned_to_id : Option String
  assigned_to_name : Option String
  created_at : String
  tags : List String
deriving DecidableEq, Repr

/-- JSON string escaping for the characters that matter here (backslash
and double quote). -/
def jsonEscape (s : String) : String :=
  s.foldl
    (fun acc c =>
      acc ++ (if c = '\\' then "\\\\"
              else if c = '"' then "\\\""
              else String.singleton c))
    ""

/-- A JSON string literal. -/
def jsonStr (s : String) : String :=
  "\"" ++ jsonEscape s ++ "\""

/-- A JSON member for an optional field; `JSON.stringify` omits properties
whose value is `undefined`. -/
def jsonOptMember (name : String) (v : Option String) : List String :=
  match v with
  | some s => [jsonStr name ++ ":" ++ jsonStr s]
  | none => []

/-- `JSON.stringify` of one conversation object, fields in interface
order. -/
def conversationToJson (c : Conversation) : String :=
  "\x7b" ++
    String.intercalate ","
      ([jsonStr "id" ++ ":" ++ jsonStr c.id,
        jsonStr "customer_id" ++ ":" ++ jsonStr c.customer_id,
        jsonStr "customer_name" ++ ":" ++ jsonStr c.customer_name,
        jsonStr "customer_phone" ++ ":" ++ jsonStr c.customer_phone,
        jsonStr "channel" ++ ":" ++ jsonStr c.channel,
        jsonStr "status" ++ ":" ++ jsonStr c.status,
        jsonStr "unread_count" ++ ":" ++ toString c.unread_count,
        jsonStr "last_message_at" ++ ":" ++ jsonStr c.last_message_at,
        jsonStr "last_message_preview" ++ ":"
          ++ jsonStr c.last_message_preview] ++
        jsonOptMember "assigned_to_id" c.assigned_to_id ++
        jsonOptMember "assigned_to_name" c.assigned_to_name ++
        [jsonStr "created_at" ++ ":" ++ jsonStr c.created_at,
         jsonStr "tags" ++ ":[" ++
           String.intercalate "," (c.tags.map jsonStr) ++ "]"]) ++
  "\x7d"

/-- `JSON.stringify` of a conversation array. -/
def conversationsToJson (l : List Conversation) : String :=
  "[" ++ String.intercalate "," (l.map conversationToJson) ++ "]"

/-- The conversation-list slice of the `Conversations` component state. -/
structure ConversationsState where
  conversations : List Conversation
  loading : Bool
deriving DecidableEq, Repr

/-- `loadConversations` from the conversations page: on success the state
is replaced only when `JSON.stringify(data) !== JSON.stringify(current)`;
on failure the error is only logged and the list keeps its last-good
value (`loading` is set to `false` on both paths). -/
def loadConversations (s : ConversationsState)
    (fetch : Except String (List Conversation)) : ConversationsState :=
  match fetch with
  | .ok data =>
      { conversations :=
          if conversationsToJson data ≠ conversationsToJson s.conversations
          then data else s.conversations
        loading := false }
  | .error _ => { s with loading := false }

/-- The last message id of a displayed or fetched list
(`data[data.length - 1].id` under the non-emptiness guard). -/
def lastMessageId (l : List Message) : Option String :=
  l.getLast?.map (fun m => m.id)

/-- The staleness test of `loadMessagesSmartly`:
`data.length !== messages.length || (data.length > 0 && messages.length >
0 && data[data.length-1].id !== messages[messages.length-1].id)`. -/
def messagesNeedRefresh (messages data : List Message) : Bool :=
  decide (data.length ≠ messages.length) ||
    (decide (0 < data.length) && decide (0 < messages.length) &&
      decide (lastMessageId data ≠ lastMessageId messages))

/-- The message slice of the `Conversations` component state
(`messages` and `messageError`). -/
structure MessagesState where
  messages : List Message
  messageError : Option String
deriving DecidableEq, Repr

/-- `loadMessagesSmartly` from the conversations page: on success the
message list is replaced only when `messagesNeedRefresh` holds; on
failure the error is only logged and the state is untouched. -/
def loadMessagesSmartly (s : MessagesState)
    (fetch : Except String (List Message)) : MessagesState :=
  match fetch with
  | .ok data =>
      if messagesNeedRefresh s.messages data then { s with messages := data }
      else s
  | .error _ => s

/-- C4: the smart refresh replaces the displayed messages exactly when the
lengths differ or, both lists being non-empty, the last message ids
differ; in particular a poll returning the identical list leaves the
state unchanged. -/
theorem loadMessagesSmartly_replace_iff (s : MessagesState)
    (data : List Message) :
    ((loadMessagesSmartly s (.ok data)).messages = data ∧
        messagesNeedRefresh s.messages data = true ∨
      loadMessagesSmartly s (.ok data) = s ∧
        messagesNeedRefresh s.messages data = false) ∧
    (messagesNeedRefresh s.messages data = true ↔
      (data.length ≠ s.messages.length ∨
        (data ≠ [] ∧ s.messages ≠ [] ∧
          lastMessageId data ≠ lastMessageId s.messages))) ∧
    loadMessagesSmartly s (.ok s.messages) = s := by
  refine ⟨?_, ?_, ?_⟩
  · by_cases h : messagesNeedRefresh s.messages data = true
    · exact Or.inl ⟨by simp [loadMessagesSmartly, h], h⟩
    · exact Or.inr ⟨by simp [loadMessagesSmartly, h],
        Bool.not_eq_true _ ▸ h⟩
  · simp only [messagesNeedRefresh, Bool.or_eq_true, Bool.and_eq_true,
      decide_eq_true_eq, List.length_pos]
    tauto
  · simp [loadMessagesSmartly, messagesNeedRefresh]

/-- An inbound message whose delivery status later changes in place. -/
def inboundSent : Message :=
  { id := "m1"
    conversation_id := "c1"
    type := "text"
    content := "hello"
    media_url := none
    direction := MessageDirection.outbound
    status := MessageStatus.sent
    created_at := "2025-01-04T10:00:00Z"
    sender_name := some "admin" }

/-- The same message after the backend marks it delivered. -/
def inboundDelivered : Message :=
  { inboundSent with status := MessageStatus.delivered }

/-- A later message that stays the tail of the conversation. -/
def tailMessage : Message :=
  { id := "m2"
    conversation_id := "c1"
    type := "text"
    content := "thanks"
    media_url := none
    direction := MessageDirection.inbound
    status := MessageStatus.read
    created_at := "2025-01-04T10:05:00Z"
    sender_name := none }

/-- C5: there are equal-length displayed and fetched lists with the same
last-message id that differ in the status of a non-last message, and the
smart refresh drops the update: a `sent → delivered` transition on a
non-tail message is missed. -/
theorem loadMessagesSmartly_misses_status_update :
    ∃ messages data : List Message,
      messages.length = data.length ∧
      lastMessageId messages = lastMessageId data ∧
      messages.head?.map Message.id = data.head?.map Message.id ∧
      messages.head?.map Message.status = some MessageStatus.sent ∧
      data.head?.map Message.status = some MessageStatus.delivered ∧
      1 < messages.length ∧
      messages ≠ data ∧
      messagesNeedRefresh messages data = false ∧
      loadMessagesSmartly ⟨messages, none⟩ (.ok data) = ⟨messages, none⟩ :=
  ⟨[inboundSent, tailMessage], [inboundDelivered, tailMessage],
    by decide, by decide, by decide, by decide, by decide, by decide,
    by decide, by decide, by decide⟩

/-- C7: a failed poll tick is caught and logged only: with an error fetch
outcome, `loadConversations` keeps the displayed conversations and
`loadMessagesSmartly` keeps the whole message state, surfacing no error. -/
theorem poll_failure_preserves_state (cs : ConversationsState)
    (ms : MessagesState) (e e2 : String) :
    (loadConversations cs (.error e)).conversations = cs.conversations ∧
    loadMessagesSmartly ms (.error e2) = ms ∧
    (loadMessagesSmartly ms (.error e2)).messageError = ms.messageError :=
  ⟨rfl, rfl, rfl⟩

/-- C6: on a successful poll, structurally equal fetched data (equal JSON
serialisations, in particular an identical list) leaves the conversation
state untouched, and the state is replaced only when the serialisations
differ. -/
theorem loadConversations_noop_when_equal (s : ConversationsState)
    (data : List Conversation) :
    (conversationsToJson data = conversationsToJson s.conversations →
      (loadConversations s (.ok data)).conversations = s.conversations) ∧
    (data = s.conversations →
      (loadConversations s (.ok data)).conversations = s.conversations) ∧
    ((loadConversations s (.ok data)).conversations ≠ s.conversations →
      (loadConversations s (.ok data)).conversations = data ∧
      conversationsToJson data ≠ conversationsToJson s.conversations) := by
  refine ⟨fun h => ?_, fun h => ?_, fun h => ?_⟩
  · simp [loadConversations, h]
  · simp [loadConversations, h]
  · by_cases hj :
      conversationsToJson data ≠ conversationsToJson s.conversations
    · exact ⟨by simp [loadConversations, if_pos hj], hj⟩
    · exact absurd (by simp [loadConversations, if_neg hj]) h

/-- A concrete conversation used to witness the no-op refresh. -/
def sampleConversation : Conversation :=
  { id := "conv-1"
    customer_id := "c-1"
    customer_name := "Acme"
    customer_phone := "+6600000000"
    channel := "whatsapp"
    status := "open"
    unread_count := 2
    last_message_at := "2025-01-04T10:05:00Z"
    last_message_preview := "thanks"
    assigned_to_id := none
    assigned_to_name := none
    created_at := "2025-01-01T00:00:00Z"
    tags := ["vip"] }

/-- Witness for `loadConversations_noop_when_equal`: refetching the
identical snapshot changes nothing. -/
theorem loadConversations_noop_witness :
    (loadConversations
        { conversations := [sampleConversation], loading := false }
        (.ok [sampleConversation])).conversations
      = [sampleConversation] :=
  (loadConversations_noop_when_equal
      { conversations := [sampleConversation], loading := false }
      [sampleConversation]).2.1 rfl

/-! ## Quotation service HTTP error handling -/

/-- The parsed JSON body of a quotation endpoint response
(`response.json()`): read as an error object through its optional
`detail` field, or as the created/updated quotation on success. -/
structure QuotationApiBody where
  detail : Option String
  parsedQuotation : Quotation
deriving DecidableEq, Repr

/-- A quotation endpoint HTTP response: the `ok` flag of the fetch
response together with its parsed body. -/
structure QuotationApiResponse where
  ok : Bool
  body : QuotationApiBody
deriving DecidableEq, Repr

/-- `QuotationService.createQuotation`: a non-ok response throws
`Error(error.detail || 'Failed to create quotation')`; an ok response
returns the parsed quotation. -/
def createQuotation (resp : QuotationApiResponse) : Except String Quotation :=
  if resp.ok then .ok resp.body.parsedQuotation
  else .error (jsOrString resp.body.detail "Failed to create quotation")

/-- `QuotationService.updateQuotation`: a non-ok response throws
`Error(error.detail || 'Failed to update quotation')`; an ok response
returns the parsed quotation. -/
def updateQuotation (resp : QuotationApiResponse) : Except String Quotation :=
  if resp.ok then .ok resp.body.parsedQuotation
  else .error (jsOrString resp.body.detail "Failed to update quotation")

/-- C8 counterexample: with a non-ok response whose body carries a
`detail` field holding the empty string, `createQuotation` throws the
generic fallback message, not the present `detail` value, because the
JavaScript `||` treats the empty string as falsy. -/
theorem createQuotation_empty_detail_counterexample :
    ({ ok := false,
       body := { detail := some "", parsedQuotation := sentQuotation } } :
        QuotationApiResponse).body.detail = some "" ∧
    createQuotation
        { ok := false,
          body := { detail := some "", parsedQuotation := sentQuotation } }
      = .error "Failed to create quotation" ∧
    "Failed to create quotation" ≠ "" :=
  ⟨rfl, rfl, by decide⟩

/-- C8 (amended): a non-ok response throws an error whose message is the
body's `detail` field when that field is present and non-empty, and the
generic fallback when it is absent or empty; an ok response returns the
parsed quotation. -/
theorem quotation_service_error_detail (resp : QuotationApiResponse) :
    (resp.ok = true →
      createQuotation resp = .ok resp.body.parsedQuotation ∧
      updateQuotation resp = .ok resp.body.parsedQuotation) ∧
    (resp.ok = false →
      (∀ d, resp.body.detail = some d → d ≠ "" →
        createQuotation resp = .error d ∧
        updateQuotation resp = .error d) ∧
      ((resp.body.detail = none ∨ resp.body.detail = some "") →
        createQuotation resp = .error "Failed to create quotation" ∧
        updateQuotation resp = .error "Failed to update quotation")) := by
  refine ⟨fun hok => ?_, fun hko => ⟨fun d hd hne => ?_, fun habsent => ?_⟩⟩
  · exact ⟨by simp [createQuotation, hok], by simp [updateQuotation, hok]⟩
  · constructor <;>
      simp [createQuotation, updateQuotation, hko, jsOrString, hd, hne]
  · rcases habsent with hnone | hempty <;>
      exact ⟨by simp [createQuotation, hko, jsOrString, *],
             by simp [updateQuotation, hko, jsOrString, *]⟩

/-- Witness for `quotation_service_error_detail` on a non-ok response
with a non-empty `detail`. -/
theorem quotation_service_error_detail_witness :
    createQuotation
        { ok := false,
          body := { detail := some "Quotation not found",
                    parsedQuotation := sentQuotation } }
      = .error "Quotation not found" ∧
    updateQuotation
        { ok := false,
          body := { detail := some "Quotation not found",
                    parsedQuotation := sentQuotation } }
      = .error "Quotation not found" :=
  (quotation_service_error_detail
      { ok := false,
        body := { detail := some "Quotation not found",
                  parsedQuotation := sentQuotation } }).2
    rfl |>.1 "Quotation not found" rfl (by decide)

/-! ## Campaign builder: recipient preview and save guard -/

/-- `calculateRecipients` from the campaigns page: keeps the contacts
whose tag list shares a tag with the selected filter tags (the
`length === 0` branch of the filter returns every contact, but the
caller never reaches it with an empty selection). -/
def calculateRecipientsFilter (tags : List String)
    (contacts : List Contact) : List Contact :=
  contacts.filter (fun contact =>
    if tags.length = 0 then true
    else tags.any (fun tag => contact.tags.contains tag))

/-- The recipient count computed by `calculateRecipients`
(`setRecipientCount(filtered.length)`). -/
def campaignRecipientCount (tags : List String)
    (contacts : List Contact) : Nat :=
  (calculateRecipientsFilter tags contacts).length

/-- The effect guarding `calculateRecipients`: it runs only when
`segment_filters.tags?.length > 0`, otherwise the displayed count is set
to `0`. -/
def displayedRecipientCount (tags : List String)
    (contacts : List Contact) : Nat :=
  if 0 < tags.length then campaignRecipientCount tags contacts else 0

/-- The campaign dialog save-button guard:
`disabled={!formData.name || !formData.message_content ||
recipientCount === 0}`. -/
def saveCampaignDisabled (name message_content : String)
    (recipientCount : Nat) : Bool :=
  name == "" || message_content == "" || recipientCount == 0

/-- C10: the previewed recipient count is the number of contacts carrying
at least one selected tag; with no tags selected it is `0`, not the full
contact list; and Create/Update is disabled exactly when the name or the
message is empty or the recipient count is `0`. -/
theorem campaign_recipients_and_guard (tags : List String)
    (contacts : List Contact) (name msg : String) :
    displayedRecipientCount tags contacts
        = (contacts.filter
            (fun c => tags.any (fun t => c.tags.contains t))).length ∧
    (tags = [] → displayedRecipientCount tags contacts = 0) ∧
    (saveCampaignDisabled name msg (displayedRecipientCount tags contacts)
        = true ↔
      (name = "" ∨ msg = "" ∨ displayedRecipientCount tags contacts = 0)) := by
  refine ⟨?_, fun h => ?_, ?_⟩
  · cases tags with
    | nil =>
        simp [displayedRecipientCount, campaignRecipientCount,
          calculateRecipientsFilter]
    | cons t ts =>
        simp [displayedRecipientCount, campaignRecipientCount,
          calculateRecipientsFilter]
  · simp [h, displayedRecipientCount]
  · simp only [saveCampaignDisabled, Bool.or_eq_true, beq_iff_eq]
    tauto

/-- Witness for `campaign_recipients_and_guard`: an empty tag selection
displays zero recipients even over a non-empty contact list. -/
theorem campaign_recipients_and_guard_witness :
    displayedRecipientCount []
        [{ id := "c-1", name := "Acme", phone := "+6600000000",
           email := none, whatsapp_id := none, line_id := none,
           tags := ["vip"], notes := none,
           created_at := "2025-01-01T00:00:00Z",
           updated_at := "2025-01-01T00:00:00Z" }] = 0 :=
  (campaign_recipients_and_guard []
      [{ id := "c-1", name := "Acme", phone := "+6600000000",
         email := none, whatsapp_id := none, line_id := none,
         tags := ["vip"], notes := none,
         created_at := "2025-01-01T00:00:00Z",
         updated_at := "2025-01-01T00:00:00Z" }] "New Year" "Hello").2.1 rfl
